import Mathlib

/-!
Shallow embedding of the joke-retrieval service core
(`app/models/joke.py`, `app/core/embeddings.py`, `app/api/grpc_server.py`,
`app/api/fastmcp_server.py`) together with theorems settling the spec claims.

Conventions of the embedding:
* Python floats are modelled as exact rationals (`ℚ`); the claims under
  scrutiny are order/range/bookkeeping properties, not rounding properties.
* SQL serial primary keys are modelled as `length + 1` counters (rows are
  never deleted by the code under study, so this matches serial sequences).
* The external vector backends (the Chroma collection and the pgvector
  engine) are modelled at their interface: a Chroma query response is any
  list of hits that is consistent with a nearest-neighbour query over the
  collection's documents (`chromaRespValid`), and the pgvector distance
  metric is an abstract parameter `cosDist` applied to the stored vector,
  yielding SQL NULL (`none`) for a row whose embedding column is NULL.
-/

/-- A row of the `jokes` table (`app/models/joke.py`, class `Joke`).
`embedding` is the nullable `Vector(384)` column. -/
structure JokeRow where
  id : Nat
  text : String
  category : String
  source : Option String := none
  embedding : Option (List ℚ) := none
  deriving Repr, DecidableEq

/-- A row of the `tags` table (`app/models/joke.py`, class `Tag`);
`name` carries a UNIQUE constraint. -/
structure TagRow where
  id : Nat
  name : String
  deriving Repr, DecidableEq

/-- A row of the `joke_feedback` table (`app/models/joke.py`,
class `JokeFeedback`). Mapped columns: `id`, `joke_id`, `liked`,
`feedback_text`, `created_at`; there is no `user_id` column. -/
structure FeedbackRow where
  id : Nat
  joke_id : Nat
  liked : Bool
  feedback_text : Option String := none
  deriving Repr, DecidableEq

/-- A row of the `query_logs` table (`app/models/joke.py`, class `QueryLog`).
`clarification_needed` has column default `False`; `selected_joke_id` and
`relevance_score` are nullable. -/
structure QueryLogRow where
  id : Nat
  query : String
  context : Option String := none
  embedding : Option (List ℚ) := none
  clarification_needed : Bool := false
  selected_joke_id : Option Nat := none
  relevance_score : Option ℚ := none
  deriving Repr, DecidableEq

/-- The relational database state: the four tables plus the `joke_tags`
association table (pairs `(joke_id, tag_id)`). -/
structure DBState where
  jokes : List JokeRow := []
  tags : List TagRow := []
  assoc : List (Nat × Nat) := []
  feedback : List FeedbackRow := []
  queryLogs : List QueryLogRow := []
  deriving Repr, DecidableEq

/-- A document stored in a Chroma collection: Chroma assigns a document id
(a uuid, modelled as a counter) and keeps the SQL id in the `db_id`
metadata field (`EmbeddingService.add_joke_to_chroma` /
`add_query_to_chroma`). -/
structure ChromaDoc where
  docId : Nat
  dbId : Nat
  text : String
  deriving Repr, DecidableEq

/-- The state of the Chroma persistent client: the `jokes` and `queries`
collections (`EmbeddingService.__init__`). -/
structure ChromaState where
  jokeDocs : List ChromaDoc := []
  queryDocs : List ChromaDoc := []
  deriving Repr, DecidableEq

/-- Combined system state: the relational database plus the Chroma store. -/
structure SysState where
  db : DBState := {}
  chroma : ChromaState := {}
  deriving Repr, DecidableEq

/-- `tag.name for tag in joke.tags`: the tag names attached to a joke via
the association table, in association order. -/
def tagNamesOf (db : DBState) (jokeId : Nat) : List String :=
  (db.assoc.filter (fun p => p.1 == jokeId)).filterMap
    (fun p => (db.tags.find? (fun t => t.id == p.2)).map (fun t => t.name))

/-- Search-text composition, identical in all four retrieval handlers:
`query_text = f"{query} {context}" if context else query`. -/
def searchText (query : String) (ucontext : Option String) : String :=
  match ucontext with
  | some c => query ++ " " ++ c
  | none => query

/-- One hit of a Chroma `collection.query` response: the `db_id` metadata
value paired with the reported distance. -/
structure ChromaHit where
  dbId : Nat
  distance : ℚ
  deriving Repr, DecidableEq

/-- Outcome of the external `collection.query` call inside
`EmbeddingService.search`: either a response or a raised exception. -/
inductive BackendOutcome where
  | ok (hits : List ChromaHit)
  | err (msg : String)
  deriving Repr, DecidableEq

/-- Distances of a Chroma response are reported in ascending order
(nearest first). -/
def distsSortedAsc : List ChromaHit → Bool
  | [] => true
  | [_] => true
  | a :: b :: rest => decide (a.distance ≤ b.distance) && distsSortedAsc (b :: rest)

/-- No `db_id` appears twice. -/
def natsNodup : List Nat → Bool
  | [] => true
  | a :: as => !(as.contains a) && natsNodup as

/-- Contract of `collection.query(..., n_results=k)` over the stored
documents, as consumed by `EmbeddingService.search`: the response holds
`min k n` hits, drawn from the collection's `db_id` metadata without
repetition, in ascending distance order. The relative order of hits at
equal distance is chosen by the backend and not constrained here. -/
def chromaRespValid (docs : List ChromaDoc) (k : Nat) (hits : List ChromaHit) : Bool :=
  (hits.length == min k docs.length)
  && distsSortedAsc hits
  && hits.all (fun h => docs.any (fun d => d.dbId == h.dbId))
  && natsNodup (hits.map (fun h => h.dbId))

/-- `EmbeddingService.search` (`app/core/embeddings.py`). The whole body
runs inside `try ... except Exception: return []`, so the
`ValueError` raised when neither a query embedding nor query text is given
is itself caught, and a raising backend call yields `[]`. On success the
response is mapped to `(int(meta["db_id"]), float(1.0 - distance))`
pairs. (The normalization applied to a caller-supplied embedding only
affects what is sent to the backend and is absorbed into the outcome.) -/
def embeddingSearch (queryEmbedding : Option (List ℚ)) (queryText : Option String)
    (outcome : BackendOutcome) : List (Nat × ℚ) :=
  if queryEmbedding.isNone && queryText.isNone then
    []
  else
    match outcome with
    | .err _ => []
    | .ok hits => hits.map (fun h => (h.dbId, 1 - h.distance))

/-- Ranking demanded by the spec for claim C3: descending similarity with
ties broken by ascending item id. (Spec-side predicate, used only to state
the claim.) -/
def rankedPerSpec : List (Nat × ℚ) → Bool
  | [] => true
  | [_] => true
  | (i, s) :: (j, t) :: rest =>
      (decide (t < s) || (s == t && decide (i < j))) && rankedPerSpec ((j, t) :: rest)

/-- Descending similarity scores (the order the code actually inherits
from an ascending-distance response). -/
def scoresSortedDesc : List (Nat × ℚ) → Bool
  | [] => true
  | [_] => true
  | a :: b :: rest => decide (b.2 ≤ a.2) && scoresSortedDesc (b :: rest)

/-- The response dict built by `JokeServicer._create_joke_response`. -/
structure JokeResponseG where
  id : String
  text : String
  category : String
  tags : List String
  relevance_score : ℚ
  is_clarification_needed : Bool
  clarification_prompt : Option String := none
  deriving Repr, DecidableEq

/-- The sentinel returned by `JokeServicer.GetJoke` when the search
produced no matches (grpc_server.py lines 53-63). -/
def noMatchResponseG : JokeResponseG :=
  { id := "0"
    text := "I couldn't find a joke matching your query. Could you try a different topic?"
    category := "unknown"
    tags := []
    relevance_score := 0
    is_clarification_needed := true
    clarification_prompt := some "Can you tell me more about what kind of joke you're looking for?" }

/-- The response built in the `except` branch of `JokeServicer.GetJoke`. -/
def errorResponseG : JokeResponseG :=
  { id := "0"
    text := "An error occurred while retrieving the joke."
    category := "error"
    tags := []
    relevance_score := 0
    is_clarification_needed := false
    clarification_prompt := none }

/-- `JokeServicer.GetJoke` (grpc_server.py). The search result
`jokeMatches` is the value returned by `embedding_service.search`;
`threshold` is `settings.VECTOR_SIMILARITY_THRESHOLD` (read once at
startup, default 0.05, deployment-tunable). When matches is empty, the
handler returns the sentinel before touching the database. Otherwise it
commits one QueryLog row plus one Chroma query document and then builds
the response with `is_clarification_needed = score < threshold`; no other
condition feeds that flag. When the matched id is absent from the `jokes`
table, `joke.tags` raises on `None` after the commit, and the `except`
branch returns the error response. -/
def grpcGetJoke (st : SysState) (jokeMatches : List (Nat × ℚ)) (threshold : ℚ)
    (query : String) (ucontext : Option String) : JokeResponseG × SysState :=
  let queryText := searchText query ucontext
  match jokeMatches with
  | [] => (noMatchResponseG, st)
  | (jokeId, score) :: _ =>
    let logEntry : QueryLogRow :=
      { id := st.db.queryLogs.length + 1
        query := query
        context := ucontext
        clarification_needed := decide (score < threshold)
        selected_joke_id := some jokeId
        relevance_score := some score }
    let qdoc : ChromaDoc :=
      { docId := st.chroma.queryDocs.length + 1, dbId := logEntry.id, text := queryText }
    let st' : SysState :=
      { st with
        db := { st.db with queryLogs := st.db.queryLogs ++ [logEntry] }
        chroma := { st.chroma with queryDocs := st.chroma.queryDocs ++ [qdoc] } }
    match st.db.jokes.find? (fun j => j.id == jokeId) with
    | none => (errorResponseG, st')
    | some joke =>
      let needed := decide (score < threshold)
      ({ id := toString jokeId
         text := joke.text
         category := joke.category
         tags := tagNamesOf st.db joke.id
         relevance_score := score
         is_clarification_needed := needed
         clarification_prompt :=
           if needed then
             some "Your request was a bit ambiguous. Could you be more specific about the kind of joke you want?"
           else none }, st')

/-- `id_to_score.get(joke.id, 0.0)` in `JokeServicer.GetJokes`: the dict
comprehension keeps the last score listed for an id, and a missing id
defaults to `0.0`. -/
def grpcScoreOf (ms : List (Nat × ℚ)) (jokeId : Nat) : ℚ :=
  (((ms.filter (fun m => m.1 == jokeId)).getLast?).map Prod.snd).getD 0

/-- The sentinel element of the `GetJokes` empty-match response. -/
def noMatchResponseGs : JokeResponseG :=
  { id := "0"
    text := "I couldn't find any jokes matching your query. Could you try a different topic?"
    category := "unknown"
    tags := []
    relevance_score := 0
    is_clarification_needed := true
    clarification_prompt := some "Can you tell me more about what kind of jokes you're looking for?" }

/-- `JokeServicer.GetJokes` (grpc_server.py). On empty matches the
sentinel list is returned with no database write. Otherwise
`db.query(Joke).filter(Joke.id.in_(joke_ids)).all()` fetches the matched
rows; SQL reports them in table order (no ORDER BY is issued; table order
is the realization used here), so `jokes[0]` below is the first matching
row in table order, not the best-scored one. One QueryLog row records the
OR of the per-item flags, `jokes[0].id` and its score, and one Chroma
query document is added. -/
def grpcGetJokes (st : SysState) (jokeMatches : List (Nat × ℚ)) (threshold : ℚ)
    (query : String) (ucontext : Option String) : List JokeResponseG × SysState :=
  let queryText := searchText query ucontext
  match jokeMatches with
  | [] => ([noMatchResponseGs], st)
  | _ :: _ =>
    let ids := jokeMatches.map Prod.fst
    let jokes := st.db.jokes.filter (fun j => ids.contains j.id)
    let responses := jokes.map (fun j =>
      let score := grpcScoreOf jokeMatches j.id
      let needed := decide (score < threshold)
      ({ id := toString j.id
         text := j.text
         category := j.category
         tags := tagNamesOf st.db j.id
         relevance_score := score
         is_clarification_needed := needed
         clarification_prompt :=
           if needed then some "Could you be more specific about the type of joke you want?"
           else none } : JokeResponseG))
    let logEntry : QueryLogRow :=
      { id := st.db.queryLogs.length + 1
        query := query
        context := ucontext
        clarification_needed := responses.any (fun r => r.is_clarification_needed)
        selected_joke_id := (jokes.head?).map (fun j => j.id)
        relevance_score := some (match jokes.head? with
          | some j => grpcScoreOf jokeMatches j.id
          | none => 0) }
    let qdoc : ChromaDoc :=
      { docId := st.chroma.queryDocs.length + 1, dbId := logEntry.id, text := queryText }
    (responses,
     { st with
       db := { st.db with queryLogs := st.db.queryLogs ++ [logEntry] }
       chroma := { st.chroma with queryDocs := st.chroma.queryDocs ++ [qdoc] } })

/-- gRPC status codes set on the context by `JokeServicer.RecordFeedback`. -/
inductive GrpcCode where
  | notFound
  | internal
  deriving Repr, DecidableEq

/-- `JokeServicer.RecordFeedback` (grpc_server.py lines 244-266): look the
joke up; missing id sets NOT_FOUND and writes nothing, otherwise exactly
one `joke_feedback` row is committed and success is reported. -/
def grpcRecordFeedback (st : DBState) (jokeId : Nat) (liked : Bool)
    (feedbackText : Option String) : (Bool × String × Option GrpcCode) × DBState :=
  match st.jokes.find? (fun j => j.id == jokeId) with
  | none => ((false, "Joke not found", some .notFound), st)
  | some _ =>
    ((true, "Feedback recorded successfully", none),
     { st with feedback := st.feedback ++
        [{ id := st.feedback.length + 1, joke_id := jokeId, liked := liked,
           feedback_text := feedbackText }] })

/-- The pydantic `JokeResponse` model of `app/api/fastmcp_server.py`. -/
structure JokeResponseM where
  id : Int
  text : String
  category : Option String := none
  source : Option String := none
  similarity_score : Option ℚ := none
  tags : List String := []
  deriving Repr, DecidableEq

/-- `Joke.embedding.cosine_distance(query_embedding)` as evaluated by SQL:
NULL (`none`) when the row's embedding column is NULL, otherwise the
backend metric `cosDist` applied to the stored vector and the query
vector. -/
def pgKey (cosDist : List ℚ → List ℚ → ℚ) (qvec : List ℚ) (j : JokeRow) : Option ℚ :=
  j.embedding.map (fun v => cosDist v qvec)

/-- Comparison used by `ORDER BY <distance> ASC` in PostgreSQL: NULL keys
sort last (the NULLS LAST default of ascending order). -/
def optDistLE : Option ℚ → Option ℚ → Bool
  | some a, some b => decide (a ≤ b)
  | some _, none => true
  | none, some _ => false
  | none, none => true

/-- Stable insertion of a row by ascending distance key. -/
def insertRow (key : JokeRow → Option ℚ) (x : JokeRow) : List JokeRow → List JokeRow
  | [] => [x]
  | y :: ys => if optDistLE (key x) (key y) then x :: y :: ys else y :: insertRow key x ys

/-- `ORDER BY <distance> ASC`: a stable ascending sort with NULLS LAST.
PostgreSQL leaves the relative order of equal keys unspecified; the stable
realization (table order among equal keys) is fixed here. -/
def orderByDistance (key : JokeRow → Option ℚ) : List JokeRow → List JokeRow
  | [] => []
  | x :: xs => insertRow key x (orderByDistance key xs)

/-- The `get_joke` tool of `app/api/fastmcp_server.py` (lines 50-111).
`embed` is `EmbeddingService.create_embedding` (the shared sentence
transformer); `cosDist` is the pgvector cosine-distance metric on
non-NULL vectors. A QueryLog row holding the query, the context and the
embedding of the combined text is committed before the search. The search
is `ORDER BY cosine_distance LIMIT 1` with no filter on NULL embeddings.
On a hit the row's distance is re-read
(`db.scalar(...)`, NULL for a NULL embedding) and
`similarity = 1.0 - (distance if distance is not None else 0.0)`; the log
row is then updated with the selected joke id only. -/
def mcpGetJoke (st : DBState) (embed : String → List ℚ)
    (cosDist : List ℚ → List ℚ → ℚ) (query : String) (ucontext : Option String) :
    JokeResponseM × DBState :=
  let queryWithContext := searchText query ucontext
  let qvec := embed queryWithContext
  let log0 : QueryLogRow :=
    { id := st.queryLogs.length + 1, query := query, context := ucontext,
      embedding := some qvec }
  let st1 : DBState := { st with queryLogs := st.queryLogs ++ [log0] }
  match (orderByDistance (pgKey cosDist qvec) st1.jokes).take 1 with
  | [] =>
    ({ id := -1
       text := "Sorry, I couldn't find a joke matching your query."
       similarity_score := some 0 }, st1)
  | joke :: _ =>
    let distance := pgKey cosDist qvec joke
    let similarity : ℚ := 1 - distance.getD 0
    let st2 : DBState :=
      { st with queryLogs := st.queryLogs ++ [{ log0 with selected_joke_id := some joke.id }] }
    ({ id := (joke.id : Int)
       text := joke.text
       category := some joke.category
       source := joke.source
       similarity_score := some similarity
       tags := tagNamesOf st joke.id }, st2)

/-- The `get_jokes` tool of `app/api/fastmcp_server.py` (lines 114-183).
Same pipeline as `mcpGetJoke` with `LIMIT limit`; each returned row gets
its own re-read distance and `1.0 - distance` score, and the pre-written
log row is updated with the first row's id only — its
`clarification_needed` stays at the column default and `relevance_score`
stays NULL. -/
def mcpGetJokes (st : DBState) (embed : String → List ℚ)
    (cosDist : List ℚ → List ℚ → ℚ) (query : String) (limit : Nat)
    (ucontext : Option String) : List JokeResponseM × DBState :=
  let queryWithContext := searchText query ucontext
  let qvec := embed queryWithContext
  let log0 : QueryLogRow :=
    { id := st.queryLogs.length + 1, query := query, context := ucontext,
      embedding := some qvec }
  let st1 : DBState := { st with queryLogs := st.queryLogs ++ [log0] }
  match (orderByDistance (pgKey cosDist qvec) st1.jokes).take limit with
  | [] =>
    ([{ id := -1
        text := "Sorry, I couldn't find any jokes matching your query."
        similarity_score := some 0 }], st1)
  | joke0 :: rest =>
    let responses := (joke0 :: rest).map (fun j =>
      ({ id := (j.id : Int)
         text := j.text
         category := some j.category
         source := j.source
         similarity_score := some (1 - (pgKey cosDist qvec j).getD 0)
         tags := tagNamesOf st j.id } : JokeResponseM))
    let st2 : DBState :=
      { st with queryLogs := st.queryLogs ++ [{ log0 with selected_joke_id := some joke0.id }] }
    (responses, st2)

/-- The attribute names the SQLAlchemy declarative constructor accepts for
`JokeFeedback`: its mapped columns and its `joke` relationship
(`app/models/joke.py`); any other keyword raises `TypeError`. -/
def jokeFeedbackMappedAttrs : List String :=
  ["id", "joke_id", "liked", "feedback_text", "created_at", "joke"]

/-- The `record_feedback` tool of `app/api/fastmcp_server.py`
(lines 186-221). A missing joke id reports failure and writes nothing.
Otherwise the handler constructs
`JokeFeedback(joke_id=..., user_id=feedback.user_id or "anonymous", liked=...)`;
`user_id` is not a mapped attribute of `JokeFeedback`, so the declarative
constructor raises `TypeError` before anything is appended, and no handler
catches it. -/
def mcpRecordFeedback (st : DBState) (jokeId : Nat) (liked : Bool)
    (userId : Option String) : Except String ((Bool × String) × DBState) :=
  match st.jokes.find? (fun j => j.id == jokeId) with
  | none =>
    .ok ((false, "Joke with ID " ++ toString jokeId ++ " not found"), st)
  | some _ =>
    if jokeFeedbackMappedAttrs.contains "user_id" then
      .ok ((true, "Feedback recorded for joke ID " ++ toString jokeId),
        { st with feedback := st.feedback ++
          [{ id := st.feedback.length + 1, joke_id := jokeId, liked := liked }] })
    else
      .error "TypeError: user_id is an invalid keyword argument for JokeFeedback"

/-- The tag loop of `JokeServicer.AddJoke` (grpc_server.py lines 313-319).
The session is created with `autoflush=False` and the loop never flushes,
so `db.query(Tag).filter(Tag.name == tag_name).first()` consults only the
committed `tags` table; tags created earlier in the same loop stay pending
and invisible to it. Returns the pending new rows (ids in creation order,
continuing the serial sequence) and the attached tag ids in loop order. -/
def grpcTagLoop (committedTags : List TagRow) (nextTagId : Nat) :
    List String → List TagRow × List Nat
  | [] => ([], [])
  | n :: rest =>
    match committedTags.find? (fun t => t.name == n) with
    | some t =>
      let r := grpcTagLoop committedTags nextTagId rest
      (r.1, t.id :: r.2)
    | none =>
      let r := grpcTagLoop committedTags (nextTagId + 1) rest
      (⟨nextTagId, n⟩ :: r.1, nextTagId :: r.2)

/-- The UNIQUE(name) constraint of the `tags` table as checked when the
pending INSERTs are flushed at commit. A clash with a committed row cannot
arise (the loop consulted the committed table before creating), so the
commit fails exactly when two pending rows share a name. -/
def pendingNamesOk (pending : List TagRow) : Bool :=
  decide (pending.map (fun t => t.name)).Nodup

/-- The response built in the `except` branch of `JokeServicer.AddJoke`. -/
def addErrorResponseG : JokeResponseG :=
  { id := "0"
    text := "An error occurred while adding the joke."
    category := "error"
    tags := []
    relevance_score := 0
    is_clarification_needed := false
    clarification_prompt := none }

/-- `JokeServicer.AddJoke` (grpc_server.py lines 275-350). The joke row is
created WITHOUT an embedding (the `embedding` column stays NULL; the
Chroma document id is assigned to `joke.embedding_id`, which is not a
mapped column and is never persisted), the text is added to the Chroma
`jokes` collection, and the tag loop runs as in `grpcTagLoop`. The Chroma
write happens before the commit and is not transactional: when the commit
fails on the tags UNIQUE constraint, the `except` branch returns the error
response, the database changes are discarded, but the Chroma document
remains. -/
def grpcAddJoke (st : SysState) (text category : String) (source : Option String)
    (tagNames : List String) : JokeResponseG × SysState :=
  let jokeId := st.db.jokes.length + 1
  let joke : JokeRow :=
    { id := jokeId, text := text, category := category, source := source, embedding := none }
  let jdoc : ChromaDoc :=
    { docId := st.chroma.jokeDocs.length + 1, dbId := jokeId, text := text }
  let chroma' : ChromaState := { st.chroma with jokeDocs := st.chroma.jokeDocs ++ [jdoc] }
  let (pending, attachIds) := grpcTagLoop st.db.tags (st.db.tags.length + 1) tagNames
  if pendingNamesOk pending then
    let db' : DBState :=
      { st.db with
        jokes := st.db.jokes ++ [joke]
        tags := st.db.tags ++ pending
        assoc := st.db.assoc ++ attachIds.map (fun tid => (jokeId, tid)) }
    ({ id := toString jokeId
       text := text
       category := category
       tags := tagNamesOf db' jokeId
       relevance_score := 1
       is_clarification_needed := false
       clarification_prompt := none }, { db := db', chroma := chroma' })
  else
    (addErrorResponseG, { st with chroma := chroma' })

/-- The tag loop of the `add_joke` tool (`app/api/fastmcp_server.py`
lines 249-261). After creating a tag the handler calls `db.flush()`, so a
tag created for an earlier name in the same call is visible to the lookup
for a later duplicate name. Returns the updated tag table and the
attached tag ids in loop order. -/
def mcpTagLoop : List TagRow → Nat → List String → List TagRow × List Nat
  | tags, _, [] => (tags, [])
  | tags, nextTagId, n :: rest =>
    match tags.find? (fun t => t.name == n) with
    | some t =>
      let r := mcpTagLoop tags nextTagId rest
      (r.1, t.id :: r.2)
    | none =>
      let r := mcpTagLoop (tags ++ [⟨nextTagId, n⟩]) (nextTagId + 1) rest
      (r.1, nextTagId :: r.2)

/-- The response dict of the `add_joke` tool. -/
structure AddJokeResultM where
  id : Nat
  text : String
  category : String
  source : Option String
  tags : List String
  deriving Repr, DecidableEq

/-- The `add_joke` tool of `app/api/fastmcp_server.py` (lines 224-275).
The joke row is created WITH the embedding of its text; nothing is ever
written to the Chroma collection on this path. -/
def mcpAddJoke (st : SysState) (embed : String → List ℚ) (text category : String)
    (source : Option String) (tagNames : List String) : AddJokeResultM × SysState :=
  let jokeId := st.db.jokes.length + 1
  let joke : JokeRow :=
    { id := jokeId, text := text, category := category, source := source,
      embedding := some (embed text) }
  let (tags', attachIds) := mcpTagLoop st.db.tags (st.db.tags.length + 1) tagNames
  let db' : DBState :=
    { st.db with
      jokes := st.db.jokes ++ [joke]
      tags := tags'
      assoc := st.db.assoc ++ attachIds.map (fun tid => (jokeId, tid)) }
  ({ id := jokeId
     text := text
     category := category
     source := source
     tags := tagNamesOf db' jokeId }, { st with db := db' })

/-- `p` occurs at the head of `l`. -/
def leadsChars : List Char → List Char → Bool
  | [], _ => true
  | _ :: _, [] => false
  | a :: as, b :: bs => a == b && leadsChars as bs

/-- `p` occurs contiguously somewhere in `l`. -/
def withinChars : List Char → List Char → Bool
  | p, [] => leadsChars p []
  | p, b :: rest => leadsChars p (b :: rest) || withinChars p rest

/-- Case-insensitive substring occurrence, the condition of the spec's
override rule (`query.lower() in joke_text.lower()`). Spec-side predicate:
it is used only to state claim C1, the code contains no such check. -/
def substrCI (q t : String) : Bool :=
  withinChars (q.data.map Char.toLower) (t.data.map Char.toLower)

/-- Number of `tags` rows carrying a given name. -/
def countName (ts : List TagRow) (n : String) : Nat :=
  (ts.map (fun t => t.name)).count n

/-! Helper lemmas. -/

theorem list_any_map {α β : Type} (l : List α) (f : α → β) (p : β → Bool) :
    (l.map f).any p = l.any (fun a => p (f a)) := by
  induction l with
  | nil => rfl
  | cons a as ih => simp [List.any, ih]

theorem scoresDesc_of_distsAsc (f : ChromaHit → Nat × ℚ)
    (hf : ∀ h, (f h).2 = 1 - h.distance) :
    ∀ hits : List ChromaHit, distsSortedAsc hits = true →
      scoresSortedDesc (hits.map f) = true := by
  intro hits
  induction hits with
  | nil => intro _; rfl
  | cons a rest ih =>
    cases rest with
    | nil => intro _; rfl
    | cons b rest' =>
      intro h
      simp only [distsSortedAsc, Bool.and_eq_true, decide_eq_true_eq] at h
      simp only [List.map_cons, scoresSortedDesc, Bool.and_eq_true, decide_eq_true_eq]
      refine ⟨?_, ?_⟩
      · rw [hf a, hf b]
        linarith [h.1]
      · have := ih h.2
        simpa using this

theorem insertRow_of_none (key : JokeRow → Option ℚ) (x : JokeRow) (l : List JokeRow)
    (hx : key x = none) (hl : ∀ y ∈ l, key y = none) :
    insertRow key x l = x :: l := by
  cases l with
  | nil => rfl
  | cons y ys =>
    have hy := hl y (List.mem_cons_self y ys)
    simp [insertRow, hx, hy, optDistLE]

theorem orderByDistance_of_none (key : JokeRow → Option ℚ) (l : List JokeRow)
    (hl : ∀ y ∈ l, key y = none) : orderByDistance key l = l := by
  induction l with
  | nil => rfl
  | cons x xs ih =>
    rw [orderByDistance,
      ih (fun y hy => hl y (List.mem_cons_of_mem x hy))]
    exact insertRow_of_none key x xs (hl x (List.mem_cons_self x xs))
      (fun y hy => hl y (List.mem_cons_of_mem x hy))

theorem countName_eq_one_of_mem {ts : List TagRow} {n : String}
    (hnd : (ts.map (fun t => t.name)).Nodup)
    (hmem : n ∈ ts.map (fun t => t.name)) : countName ts n = 1 := by
  have hle := (List.nodup_iff_count_le_one.mp hnd) n
  have hpos : 0 < (ts.map (fun t => t.name)).count n := List.count_pos_iff.mpr hmem
  unfold countName
  omega

theorem mcpTagLoop_extends (names : List String) :
    ∀ (tags : List TagRow) (nextTagId : Nat),
      ∃ ext, (mcpTagLoop tags nextTagId names).1 = tags ++ ext := by
  induction names with
  | nil => intro tags nextTagId; exact ⟨[], by simp [mcpTagLoop]⟩
  | cons n rest ih =>
    intro tags nextTagId
    cases h : tags.find? (fun t => t.name == n) with
    | some t =>
      obtain ⟨ext, hext⟩ := ih tags nextTagId
      exact ⟨ext, by simp [mcpTagLoop, h, hext]⟩
    | none =>
      obtain ⟨ext, hext⟩ := ih (tags ++ [⟨nextTagId, n⟩]) (nextTagId + 1)
      refine ⟨⟨nextTagId, n⟩ :: ext, ?_⟩
      simp only [mcpTagLoop, h, hext]
      simp

theorem mcpTagLoop_nodup_count (names : List String) :
    ∀ (tags : List TagRow) (nextTagId : Nat),
      (tags.map (fun t => t.name)).Nodup →
      ((mcpTagLoop tags nextTagId names).1.map (fun t => t.name)).Nodup ∧
      ∀ n ∈ names, countName (mcpTagLoop tags nextTagId names).1 n = 1 := by
  induction names with
  | nil =>
    intro tags nextTagId hnd
    refine ⟨by simpa [mcpTagLoop] using hnd, by simp⟩
  | cons m rest ih =>
    intro tags nextTagId hnd
    cases h : tags.find? (fun t => t.name == m) with
    | some t =>
      have hrec := ih tags nextTagId hnd
      have hres : (mcpTagLoop tags nextTagId (m :: rest)).1 =
          (mcpTagLoop tags nextTagId rest).1 := by
        simp [mcpTagLoop, h]
      rw [hres]
      refine ⟨hrec.1, ?_⟩
      intro n hn
      rcases List.mem_cons.mp hn with rfl | hn'
      · -- the looked-up name is already in the committed table
        have htmem : t ∈ tags := List.mem_of_find?_eq_some h
        have htname : t.name = n := by
          have := List.find?_some h
          simpa using this
        obtain ⟨ext, hext⟩ := mcpTagLoop_extends rest tags nextTagId
        apply countName_eq_one_of_mem hrec.1
        rw [hext, List.map_append]
        exact List.mem_append_left _ (List.mem_map.mpr ⟨t, htmem, htname⟩)
      · exact hrec.2 n hn'
    | none =>
      have hnotmem : m ∉ tags.map (fun t => t.name) := by
        intro hmem
        obtain ⟨t, htmem, htname⟩ := List.mem_map.mp hmem
        have := (List.find?_eq_none.mp h) t htmem
        simp [htname] at this
      have hnd' : ((tags ++ [(⟨nextTagId, m⟩ : TagRow)]).map (fun t => t.name)).Nodup := by
        rw [List.map_append]
        refine List.nodup_append.mpr ⟨hnd, by simp, ?_⟩
        intro x hx
        simp only [List.map_cons, List.map_nil, List.mem_singleton]
        intro hxm
        exact hnotmem (hxm ▸ hx)
      have hrec := ih (tags ++ [(⟨nextTagId, m⟩ : TagRow)]) (nextTagId + 1) hnd'
      have hres : (mcpTagLoop tags nextTagId (m :: rest)).1 =
          (mcpTagLoop (tags ++ [(⟨nextTagId, m⟩ : TagRow)]) (nextTagId + 1) rest).1 := by
        simp [mcpTagLoop, h]
      rw [hres]
      refine ⟨hrec.1, ?_⟩
      intro n hn
      rcases List.mem_cons.mp hn with rfl | hn'
      · obtain ⟨ext, hext⟩ := mcpTagLoop_extends rest (tags ++ [⟨nextTagId, n⟩]) (nextTagId + 1)
        apply countName_eq_one_of_mem hrec.1
        rw [hext, List.map_append]
        refine List.mem_append_left _ ?_
        rw [List.map_append]
        exact List.mem_append_right _ (by simp)
      · exact hrec.2 n hn'

/-! Claim theorems. -/

/-- C1 (amended): in `JokeServicer.GetJoke` the clarification flag of the
primary match is exactly `score < VECTOR_SIMILARITY_THRESHOLD` (and false
on the error path taken when the matched id is absent); no case-insensitive
substring re-check of the raw query against the matched item's text is
performed, so lexical overlap never overrides a sub-threshold score. -/
theorem c1_clarification_is_threshold_only (st : SysState) (jokeId : Nat) (score : ℚ)
    (rest : List (Nat × ℚ)) (threshold : ℚ) (query : String) (ucontext : Option String) :
    ((grpcGetJoke st ((jokeId, score) :: rest) threshold query ucontext).1).is_clarification_needed =
      ((st.db.jokes.find? (fun j => j.id == jokeId)).isSome && decide (score < threshold)) := by
  unfold grpcGetJoke
  cases h : st.db.jokes.find? (fun j => j.id == jokeId) with
  | none => simp [h, errorResponseG]
  | some joke => simp [h]

/-- C1 (counterexample): the spec's scenario — corpus item
"Why did the chicken cross the road? To get to the other side!", query
"chicken", threshold 0.6, score 0.4. The score is sub-threshold and the
raw query is a case-insensitive substring of the matched text, yet
`is_clarification_needed` is `true`, refuting the claimed override to
`false`. -/
theorem c1_override_refuted :
    ((2 : ℚ)/5 < 3/5) ∧
    substrCI "chicken" "Why did the chicken cross the road? To get to the other side!" = true ∧
    ((grpcGetJoke
        { db := { jokes :=
            [⟨1, "Why did the chicken cross the road? To get to the other side!",
              "classic", none, none⟩] } }
        [(1, 2/5)] (3/5) "chicken" none).1).is_clarification_needed = true := by
  refine ⟨by norm_num, by decide, ?_⟩
  norm_num [grpcGetJoke, List.find?]

/-- C2 (amended): on an empty search result the gRPC `GetJoke` returns the
full sentinel (id "0", score 0, clarification flag true, fixed prompt) but
leaves the database untouched — no QueryLog row is written; the FastMCP
`get_joke` on an empty corpus writes exactly one QueryLog row (committed
before the search) but its sentinel carries only id -1, a fixed message
and score 0, with no clarification flag or prompt. -/
theorem c2_no_match_paths (st : SysState) (threshold : ℚ) (query : String)
    (ucontext : Option String) (embed : String → List ℚ)
    (cosDist : List ℚ → List ℚ → ℚ) :
    grpcGetJoke st [] threshold query ucontext = (noMatchResponseG, st) ∧
    (st.db.jokes = [] →
      (mcpGetJoke st.db embed cosDist query ucontext).1.id = -1 ∧
      (mcpGetJoke st.db embed cosDist query ucontext).1.similarity_score = some 0 ∧
      (mcpGetJoke st.db embed cosDist query ucontext).2.queryLogs.length =
        st.db.queryLogs.length + 1) := by
  refine ⟨rfl, ?_⟩
  intro hempty
  unfold mcpGetJoke
  simp [hempty, orderByDistance]

/-- C2 (witness). -/
theorem c2_no_match_paths_witness :
    grpcGetJoke {} [] (1/20) "anything" none = (noMatchResponseG, {}) ∧
    (mcpGetJoke ({} : SysState).db (fun _ => [1]) (fun _ _ => 0) "anything" none).1.id = -1 ∧
    (mcpGetJoke ({} : SysState).db (fun _ => [1]) (fun _ _ => 0) "anything" none).1.similarity_score = some 0 ∧
    (mcpGetJoke ({} : SysState).db (fun _ => [1]) (fun _ _ => 0) "anything" none).2.queryLogs.length =
      ({} : SysState).db.queryLogs.length + 1 :=
  ⟨(c2_no_match_paths {} (1/20) "anything" none (fun _ => [1]) (fun _ _ => 0)).1,
   (c2_no_match_paths {} (1/20) "anything" none (fun _ => [1]) (fun _ _ => 0)).2 rfl⟩

/-- C2 (counterexample): with an empty corpus (so the only response
consistent with the backend contract is the empty hit list, and the search
maps it to no matches), `GetJoke` returns the sentinel but the database
holds zero QueryLog rows afterwards, not the claimed one row. -/
theorem c2_grpc_writes_no_log_refuted :
    chromaRespValid ({} : SysState).chroma.jokeDocs 1 [] = true ∧
    embeddingSearch none (some "anything") (.ok []) = [] ∧
    (grpcGetJoke {} (embeddingSearch none (some "anything") (.ok [])) (1/20) "anything" none).1 =
      noMatchResponseG ∧
    (grpcGetJoke {} (embeddingSearch none (some "anything") (.ok [])) (1/20) "anything" none).2.db.queryLogs.length = 0 := by
  refine ⟨by decide, by decide, rfl, rfl⟩

/-- C9 (confirmed): `EmbeddingService.search` returns the empty list on a
raising backend call, on missing query input (the `ValueError` is raised
inside the handler's own `try` and caught by its `except`), and on an
empty response; being a total function of the backend outcome, it never
propagates an exception to the caller. -/
theorem c9_search_errors_swallowed (queryEmbedding : Option (List ℚ))
    (queryText : Option String) (msg : String) (outcome : BackendOutcome) :
    embeddingSearch queryEmbedding queryText (.err msg) = [] ∧
    embeddingSearch none none outcome = [] ∧
    embeddingSearch queryEmbedding queryText (.ok []) = [] := by
  refine ⟨?_, ?_, ?_⟩
  · unfold embeddingSearch; split <;> rfl
  · rfl
  · unfold embeddingSearch; split <;> simp

/-- C3 (amended): a search over an `n`-document collection with `n ≤ k`
returns exactly `n` results (and never more than `k`), ordered by
descending similarity — inherited from the backend's ascending-distance
order. No ascending-id tie-break is applied by the code: the relative
order of equal scores is whatever the backend chose. -/
theorem c3_search_length_and_order (docs : List ChromaDoc) (k : Nat)
    (hits : List ChromaHit) (queryText : String)
    (hv : chromaRespValid docs k hits = true) :
    (embeddingSearch none (some queryText) (.ok hits)).length ≤ k ∧
    (docs.length ≤ k →
      (embeddingSearch none (some queryText) (.ok hits)).length = docs.length) ∧
    scoresSortedDesc (embeddingSearch none (some queryText) (.ok hits)) = true := by
  have hsearch : embeddingSearch none (some queryText) (.ok hits) =
      hits.map (fun h => (h.dbId, 1 - h.distance)) := rfl
  simp only [chromaRespValid, Bool.and_eq_true, beq_iff_eq] at hv
  obtain ⟨⟨⟨hlen, hsort⟩, _⟩, _⟩ := hv
  rw [hsearch]
  refine ⟨?_, ?_, ?_⟩
  · rw [List.length_map, hlen]
    exact Nat.min_le_left _ _
  · intro hnk
    rw [List.length_map, hlen]
    exact Nat.min_eq_right hnk
  · exact scoresDesc_of_distsAsc _ (fun _ => rfl) hits hsort

/-- C3 (witness). -/
theorem c3_search_length_and_order_witness :
    (embeddingSearch none (some "q") (.ok [⟨1, 0⟩])).length ≤ 1 ∧
    (([⟨1, 1, "a"⟩] : List ChromaDoc).length ≤ 1 →
      (embeddingSearch none (some "q") (.ok [⟨1, 0⟩])).length =
        ([⟨1, 1, "a"⟩] : List ChromaDoc).length) ∧
    scoresSortedDesc (embeddingSearch none (some "q") (.ok [⟨1, 0⟩])) = true :=
  c3_search_length_and_order [⟨1, 1, "a"⟩] 1 [⟨1, 0⟩] "q" (by decide)

/-- C3 (counterexample): a two-document collection and a response with
both hits at equal distance, the larger id first. The response satisfies
the backend contract, yet the mapped result has equal scores with
descending ids — the claimed ascending-id tie-break does not hold. -/
theorem c3_tie_order_refuted :
    chromaRespValid [⟨1, 1, "a"⟩, ⟨2, 2, "b"⟩] 2 [⟨2, 0⟩, ⟨1, 0⟩] = true ∧
    embeddingSearch none (some "q") (.ok [⟨2, 0⟩, ⟨1, 0⟩]) = [(2, 1), (1, 1)] ∧
    rankedPerSpec (embeddingSearch none (some "q") (.ok [⟨2, 0⟩, ⟨1, 0⟩])) = false := by
  have h2 : embeddingSearch none (some "q") (.ok [⟨2, 0⟩, ⟨1, 0⟩]) = [(2, 1), (1, 1)] := by
    norm_num [embeddingSearch]
  refine ⟨?_, h2, ?_⟩
  · norm_num [chromaRespValid, distsSortedAsc, natsNodup]
  · rw [h2]
    norm_num [rankedPerSpec]

/-- C4 (amended): for any backend response whose distances lie in the
cosine-distance range [0, 2], every similarity returned by
`EmbeddingService.search` lies in [-1, 1] — not [0, 1]: the conversion is
`1.0 - distance` with no clamping, so sub-zero similarities are
surfaced. -/
theorem c4_similarity_unclamped_range (queryText : String) (hits : List ChromaHit)
    (hrange : ∀ h ∈ hits, 0 ≤ h.distance ∧ h.distance ≤ 2) :
    ∀ p ∈ embeddingSearch none (some queryText) (.ok hits), -1 ≤ p.2 ∧ p.2 ≤ 1 := by
  intro p hp
  have hsearch : embeddingSearch none (some queryText) (.ok hits) =
      hits.map (fun h => (h.dbId, 1 - h.distance)) := rfl
  rw [hsearch] at hp
  obtain ⟨h, hh, rfl⟩ := List.mem_map.mp hp
  obtain ⟨h0, h2⟩ := hrange h hh
  constructor
  · simp only
    linarith
  · simp only
    linarith

/-- C4 (witness). -/
theorem c4_similarity_unclamped_range_witness :
    (-1 : ℚ) ≤ (((1 : Nat), (1 : ℚ) - 1/2)).2 ∧ (((1 : Nat), (1 : ℚ) - 1/2)).2 ≤ 1 :=
  c4_similarity_unclamped_range "q" [⟨1, 1/2⟩]
    (by intro h hh
        simp only [List.mem_singleton] at hh
        subst hh
        norm_num)
    ((1 : Nat), (1 : ℚ) - 1/2)
    (by simp [embeddingSearch])

/-- C4 (counterexample): distance 3/2 (a legitimate cosine distance, e.g.
unit vectors at a 120° angle) passes the backend contract, and the
returned similarity is -1/2, outside [0, 1]: no clamping is applied. -/
theorem c4_clamp_refuted :
    chromaRespValid [⟨1, 1, "a"⟩] 1 [⟨1, 3/2⟩] = true ∧
    ((0 : ℚ) ≤ 3/2 ∧ (3 : ℚ)/2 ≤ 2) ∧
    embeddingSearch none (some "q") (.ok [⟨1, 3/2⟩]) = [(1, -(1/2))] ∧
    ¬ ((0 : ℚ) ≤ -(1/2)) := by
  refine ⟨?_, by norm_num, ?_, by norm_num⟩
  · decide
  · norm_num [embeddingSearch]

/-- C5 (amended): the two ingestion paths do not keep the backends
consistent. `JokeServicer.AddJoke` appends a joke row whose pgvector
`embedding` column is NULL (only the Chroma collection receives the
text), while the FastMCP `add_joke` stores the embedding in the row but
never touches the Chroma collection; moreover the only response
consistent with the backend contract over an empty collection is the
empty hit list. Hence the same logical corpus and query can produce a
match under one backend and the no-match sentinel under the other. -/
theorem c5_backends_not_synchronized (st : SysState) (embed : String → List ℚ)
    (text category : String) (source : Option String) (tagNames : List String) :
    ((grpcAddJoke st text category source []).2.db.jokes =
      st.db.jokes ++ [⟨st.db.jokes.length + 1, text, category, source, none⟩]) ∧
    ((mcpAddJoke st embed text category source tagNames).2.chroma = st.chroma) ∧
    (∀ (k : Nat) (hits : List ChromaHit),
      chromaRespValid [] k hits = true → hits = []) := by
  refine ⟨?_, rfl, ?_⟩
  · simp [grpcAddJoke, grpcTagLoop, pendingNamesOk]
  · intro k hits hv
    simp only [chromaRespValid, Bool.and_eq_true, beq_iff_eq] at hv
    have hlen : hits.length = 0 := by
      have := hv.1.1.1
      simpa using this
    exact List.eq_nil_of_length_eq_zero hlen

/-- C5 (witness). -/
theorem c5_backends_not_synchronized_witness :
    ((grpcAddJoke {} "A" "c" none []).2.db.jokes =
      ({} : SysState).db.jokes ++ [⟨({} : SysState).db.jokes.length + 1, "A", "c", none, none⟩]) ∧
    ((mcpAddJoke {} (fun _ => [1]) "A" "c" none []).2.chroma = ({} : SysState).chroma) ∧
    ([] : List ChromaHit) = [] :=
  ⟨(c5_backends_not_synchronized {} (fun _ => [1]) "A" "c" none []).1,
   (c5_backends_not_synchronized {} (fun _ => [1]) "A" "c" none []).2.1,
   (c5_backends_not_synchronized {} (fun _ => [1]) "A" "c" none []).2.2 1 [] (by decide)⟩

/-- C5 (counterexample): add one item through the FastMCP (pgvector) path.
The Chroma collection stays empty, so the Chroma-backed `GetJoke` can only
see the empty hit list and returns the no-match sentinel, while the
pgvector-backed `get_joke` returns the item with similarity 1 for the same
query — the two backends disagree on both outcome and score. -/
theorem c5_swap_backend_refuted :
    ((mcpAddJoke {} (fun _ => [1]) "A" "c" none []).2.chroma.jokeDocs = []) ∧
    chromaRespValid
      (mcpAddJoke {} (fun _ => [1]) "A" "c" none []).2.chroma.jokeDocs 1 [] = true ∧
    embeddingSearch none (some "A") (.ok []) = [] ∧
    ((grpcGetJoke (mcpAddJoke {} (fun _ => [1]) "A" "c" none []).2
        (embeddingSearch none (some "A") (.ok [])) (1/20) "A" none).1 = noMatchResponseG) ∧
    ((mcpGetJoke (mcpAddJoke {} (fun _ => [1]) "A" "c" none []).2.db
        (fun _ => [1]) (fun _ _ => 0) "A" none).1.id = 1) ∧
    ((mcpGetJoke (mcpAddJoke {} (fun _ => [1]) "A" "c" none []).2.db
        (fun _ => [1]) (fun _ _ => 0) "A" none).1.similarity_score = some 1) := by
  refine ⟨rfl, by decide, by decide, rfl, ?_, ?_⟩
  · norm_num [mcpAddJoke, mcpTagLoop, mcpGetJoke, searchText, orderByDistance, insertRow,
      pgKey, tagNamesOf]
  · norm_num [mcpAddJoke, mcpTagLoop, mcpGetJoke, searchText, orderByDistance, insertRow,
      pgKey, tagNamesOf]

/-- C6 (evaluation at the failing input): with joke 1 present, the FastMCP
`record_feedback` raises `TypeError` (it passes `user_id=` to
`JokeFeedback`, which has no such mapped attribute) instead of appending a
row and reporting success; its NotFound branch and both branches of the
gRPC `RecordFeedback` behave as the claim states. -/
theorem c6_feedback_paths_eval :
    ((match mcpRecordFeedback { jokes := [⟨1, "A", "c", none, none⟩] } 1 true none with
      | .error m => some m
      | .ok _ => none) =
      some "TypeError: user_id is an invalid keyword argument for JokeFeedback") ∧
    ((mcpRecordFeedback { jokes := [⟨1, "A", "c", none, none⟩] } 99999 true none).toOption.map
      (fun r => (r.1.1, r.2.feedback.length)) = some (false, 0)) ∧
    ((grpcRecordFeedback { jokes := [⟨1, "A", "c", none, none⟩] } 1 true none).1.1 = true ∧
     (grpcRecordFeedback { jokes := [⟨1, "A", "c", none, none⟩] } 1 true none).2.feedback =
       [⟨1, 1, true, none⟩]) ∧
    ((grpcRecordFeedback { jokes := [⟨1, "A", "c", none, none⟩] } 99999 true none).1.2.2 =
       some .notFound ∧
     (grpcRecordFeedback { jokes := [⟨1, "A", "c", none, none⟩] } 99999 true none).2.feedback =
       []) := by
  refine ⟨by decide, by decide, ⟨by decide, by decide⟩, by decide, by decide⟩

/-- C7 (amended): the FastMCP tag-resolution loop (which flushes after
each creation) is idempotent: starting from a tag table with unique
names, resolving a list of names — duplicates within the list included —
once or twice leaves exactly one row per requested name and never creates
duplicates. -/
theorem c7_mcp_resolve_idempotent (tags : List TagRow) (nid nid2 : Nat)
    (names : List String) (hnd : (tags.map (fun t => t.name)).Nodup) :
    (((mcpTagLoop (mcpTagLoop tags nid names).1 nid2 names).1.map (fun t => t.name)).Nodup) ∧
    ∀ n ∈ names,
      countName (mcpTagLoop tags nid names).1 n = 1 ∧
      countName (mcpTagLoop (mcpTagLoop tags nid names).1 nid2 names).1 n = 1 := by
  have h1 := mcpTagLoop_nodup_count names tags nid hnd
  have h2 := mcpTagLoop_nodup_count names (mcpTagLoop tags nid names).1 nid2 h1.1
  exact ⟨h2.1, fun n hn => ⟨h1.2 n hn, h2.2 n hn⟩⟩

/-- C7 (witness): resolving `["x", "x"]` twice on an empty table yields
exactly one tag named "x". -/
theorem c7_mcp_resolve_idempotent_witness :
    (((mcpTagLoop (mcpTagLoop [] 1 ["x", "x"]).1 1 ["x", "x"]).1.map (fun t => t.name)).Nodup) ∧
    countName (mcpTagLoop [] 1 ["x", "x"]).1 "x" = 1 ∧
    countName (mcpTagLoop (mcpTagLoop [] 1 ["x", "x"]).1 1 ["x", "x"]).1 "x" = 1 :=
  ⟨(c7_mcp_resolve_idempotent [] 1 1 ["x", "x"] (by simp)).1,
   ((c7_mcp_resolve_idempotent [] 1 1 ["x", "x"] (by simp)).2 "x" (by simp)).1,
   ((c7_mcp_resolve_idempotent [] 1 1 ["x", "x"] (by simp)).2 "x" (by simp)).2⟩

/-- C7 (counterexample): the gRPC `AddJoke` tag loop never flushes
(`autoflush=False`), so the duplicate name "x" within one call creates two
pending rows; the commit violates the UNIQUE(name) constraint, the call
returns the error response, and zero tags named "x" exist afterwards —
not the claimed exactly one. -/
theorem c7_grpc_duplicate_refuted :
    ((grpcAddJoke {} "t" "c" none ["x", "x"]).1 = addErrorResponseG) ∧
    ((grpcAddJoke {} "t" "c" none ["x", "x"]).2.db.tags = []) ∧
    ((grpcAddJoke {} "t" "c" none ["x", "x"]).2.db.jokes = []) ∧
    countName (grpcAddJoke {} "t" "c" none ["x", "x"]).2.db.tags "x" = 0 := by
  refine ⟨rfl, rfl, rfl, rfl⟩

/-- C8 (amended): when `JokeServicer.GetJokes` has a non-empty match list
it appends exactly one QueryLog row holding the query, the context, the OR
of the per-item clarification flags of the returned items, and the id and
score of the first returned row in database table order (not necessarily
the top-ranked match); on an empty match list no row is written, and the
FastMCP path logs neither a clarification flag nor a score (see the
counterexample). -/
theorem c8_grpc_multi_log (st : SysState) (m : Nat × ℚ) (ms : List (Nat × ℚ))
    (threshold : ℚ) (query : String) (ucontext : Option String) :
    ∃ e : QueryLogRow,
      (grpcGetJokes st (m :: ms) threshold query ucontext).2.db.queryLogs =
        st.db.queryLogs ++ [e] ∧
      e.query = query ∧
      e.context = ucontext ∧
      e.clarification_needed =
        (st.db.jokes.filter (fun j => ((m :: ms).map Prod.fst).contains j.id)).any
          (fun j => decide (grpcScoreOf (m :: ms) j.id < threshold)) ∧
      e.selected_joke_id =
        ((st.db.jokes.filter (fun j => ((m :: ms).map Prod.fst).contains j.id)).head?).map
          (fun j => j.id) ∧
      e.relevance_score = some
        (match (st.db.jokes.filter (fun j => ((m :: ms).map Prod.fst).contains j.id)).head? with
         | some j => grpcScoreOf (m :: ms) j.id
         | none => 0) := by
  refine ⟨_, rfl, rfl, rfl, ?_, rfl, rfl⟩
  exact list_any_map _ _ _

/-- C8 (counterexample): on the FastMCP multi-result path the single
QueryLog row written for a call whose primary match has similarity 1/2
records `relevance_score = NULL` and `clarification_needed = false` — the
primary item's score and the clarification decision are not captured, as
the claim requires. -/
theorem c8_mcp_log_refuted :
    ((mcpGetJokes { jokes := [⟨1, "A", "c", none, some [1]⟩] }
        (fun _ => [1]) (fun _ _ => 1/2) "q" 5 none).1.map
          (fun r => r.similarity_score) = [some (1/2)]) ∧
    ((mcpGetJokes { jokes := [⟨1, "A", "c", none, some [1]⟩] }
        (fun _ => [1]) (fun _ _ => 1/2) "q" 5 none).2.queryLogs.map
          (fun l => (l.relevance_score, l.clarification_needed, l.selected_joke_id)) =
      [(none, false, some 1)]) := by
  constructor
  · norm_num [mcpGetJokes, searchText, orderByDistance, insertRow, pgKey, tagNamesOf,
      List.take]
  · norm_num [mcpGetJokes, searchText, orderByDistance, insertRow, pgKey, tagNamesOf,
      List.take]

/-- C10 (amended): the pgvector search does not filter NULL-embedding
rows: they sort after embedded rows (SQL NULLS LAST) but are still
returned when the limit is not exhausted, and the NULL re-read distance is
coalesced to 0, so such an item is returned with similarity exactly 1. In
particular, in a corpus whose rows all lack embeddings, `get_joke` returns
the first row with similarity 1. -/
theorem c10_null_embedding_returned (st : DBState) (embed : String → List ℚ)
    (cosDist : List ℚ → List ℚ → ℚ) (query : String) (ucontext : Option String)
    (j0 : JokeRow) (rest : List JokeRow)
    (hjokes : st.jokes = j0 :: rest)
    (hnull : ∀ j ∈ st.jokes, j.embedding = none) :
    (mcpGetJoke st embed cosDist query ucontext).1.id = (j0.id : Int) ∧
    (mcpGetJoke st embed cosDist query ucontext).1.similarity_score = some 1 := by
  have hall : ∀ j ∈ j0 :: rest,
      pgKey cosDist (embed (searchText query ucontext)) j = none := by
    intro j hj
    rw [← hjokes] at hj
    simp [pgKey, hnull j hj]
  have hj0 : pgKey cosDist (embed (searchText query ucontext)) j0 = none :=
    hall j0 (List.mem_cons_self j0 rest)
  have hord : orderByDistance (pgKey cosDist (embed (searchText query ucontext)))
      (j0 :: rest) = j0 :: rest :=
    orderByDistance_of_none _ _ hall
  have htake : (j0 :: rest).take 1 = [j0] := by simp
  unfold mcpGetJoke
  simp only [hjokes, hord, htake]
  simp [hj0]

/-- C10 (witness). -/
theorem c10_null_embedding_returned_witness :
    (mcpGetJoke { jokes := [⟨1, "A", "c", none, none⟩] }
      (fun _ => [1]) (fun _ _ => 0) "q" none).1.id = ((1 : Nat) : Int) ∧
    (mcpGetJoke { jokes := [⟨1, "A", "c", none, none⟩] }
      (fun _ => [1]) (fun _ _ => 0) "q" none).1.similarity_score = some 1 :=
  c10_null_embedding_returned { jokes := [⟨1, "A", "c", none, none⟩] }
    (fun _ => [1]) (fun _ _ => 0) "q" none ⟨1, "A", "c", none, none⟩ [] rfl
    (by decide)

/-- C10 (counterexample): a joke created through `JokeServicer.AddJoke`
has a NULL embedding column, yet the pgvector `get_joke` returns it as the
match with similarity 1 — a NULL-embedding item both appears in search
results and carries a nonzero score. -/
theorem c10_null_item_matched_refuted :
    ((grpcAddJoke {} "A" "c" none []).2.db.jokes.map (fun j => j.embedding) = [none]) ∧
    ((mcpGetJoke (grpcAddJoke {} "A" "c" none []).2.db
        (fun _ => [1]) (fun _ _ => 0) "q" none).1.id = 1) ∧
    ((mcpGetJoke (grpcAddJoke {} "A" "c" none []).2.db
        (fun _ => [1]) (fun _ _ => 0) "q" none).1.similarity_score = some 1) := by
  refine ⟨rfl, ?_, ?_⟩
  · norm_num [grpcAddJoke, grpcTagLoop, pendingNamesOk, mcpGetJoke, searchText,
      orderByDistance, insertRow, pgKey, tagNamesOf, List.take]
  · norm_num [grpcAddJoke, grpcTagLoop, pendingNamesOk, mcpGetJoke, searchText,
      orderByDistance, insertRow, pgKey, tagNamesOf, List.take]
